import Mathlib

/-!
Verification of the F1Visualizer repository: a shallow embedding of the
report-formatting pipeline (`extract_race_data.py`, `extract_race_data_detailed.py`)
and the dashboard state machine (`vizi.py`), together with theorems settling the
specification claims about them.

Durations are embedded at millisecond precision as `Nat` (lap times in the data
source carry millisecond granularity and the formatter renders exactly three
decimal digits), percentages and throttle samples as `Rat`, and fallible Python
calls as `Except String`.
-/

namespace F1Visualizer

/-! ### Time formatting (`format_timedelta`, extract_race_data.py lines 48-55) -/

/-- Zero-pad a natural number to two digits, the effect of the integer part of
the Python format `{seconds:06.3f}` for seconds below 60. -/
def pad2 (n : Nat) : String :=
  if n < 10 then "0" ++ toString n else toString n

/-- Zero-pad a natural number to three digits, the effect of the fractional part
of the Python format `{seconds:06.3f}` at millisecond granularity. -/
def pad3 (n : Nat) : String :=
  if n < 10 then "00" ++ toString n
  else if n < 100 then "0" ++ toString n
  else toString n

/-- Embedding of `format_timedelta` (extract_race_data.py lines 48-55 and the
identical extract_race_data_detailed.py lines 19-26; `{minutes}` and
`{minutes:01d}` agree on naturals). The argument is the duration in
milliseconds, `none` standing for a value for which `pd.isna` holds.
The Python code computes `minutes = int(total_seconds // 60)`,
`seconds = total_seconds % 60` and renders `f"{minutes}:{seconds:06.3f}"`. -/
def format_timedelta : Option Nat → String
  | none => "No time"
  | some ms =>
      let minutes := ms / 60000
      let secMs := ms % 60000
      toString minutes ++ ":" ++ pad2 (secMs / 1000) ++ "." ++ pad3 (secMs % 1000)

/-- The spec's rendering rule, stated from its words: minutes unpadded, seconds
of the minute zero-padded to 2 integer digits, milliseconds to 3 digits,
in the shape M:SS.mmm. -/
def renderMSSmmm (ms : Nat) : String :=
  toString (ms / 60000) ++ ":" ++ pad2 (ms / 1000 % 60) ++ "." ++ pad3 (ms % 1000)

/-! ### Brake zones (extract_race_data.py lines 259-269) -/

/-- Embedding of the brake-zone loop state machine of extract_race_data.py
lines 260-267: walking the samples with an `in_brake_zone` flag, a new zone is
counted at each positive sample seen while the flag is down; a zero sample
lowers the flag; otherwise the flag is unchanged. Returns the zones counted on
the remaining samples. -/
def brakeZonesAux (inZone : Bool) : List Nat → Nat
  | [] => 0
  | v :: rest =>
      if 0 < v ∧ inZone = false then 1 + brakeZonesAux true rest
      else if v = 0 then brakeZonesAux false rest
      else brakeZonesAux inZone rest

/-- Embedding of the full brake-zone computation: the loop starts with
`brake_zones = 0` and `in_brake_zone = False`. -/
def brake_zones (l : List Nat) : Nat := brakeZonesAux false l

/-- The spec's counting rule, stated from its words: the number of maximal runs
of consecutive samples with brake > 0. Each positive sample opens a run counted
once; the rest of that maximal run is skipped with `dropWhile`. -/
def countBrakeRuns : List Nat → Nat
  | [] => 0
  | v :: rest =>
      if 0 < v then 1 + countBrakeRuns (rest.dropWhile (fun w => decide (0 < w)))
      else countBrakeRuns rest
termination_by l => l.length
decreasing_by
  · simp only [List.length_cons]
    refine Nat.lt_succ_of_le ?_
    induction rest with
    | nil => simp
    | cons a t ih =>
        rw [List.dropWhile_cons]
        split
        · exact Nat.le_succ_of_le ih
        · exact Nat.le_refl _
  · simp

/-! ### Throttle usage buckets (extract_race_data.py lines 235-245) -/

/-- Fraction (as a percentage) of throttle samples at full throttle:
`(throttle_samples >= 95).mean() * 100`. -/
def full_throttle (l : List ℚ) : ℚ :=
  (l.countP (fun x => decide (95 ≤ x)) : ℚ) / l.length * 100

/-- Fraction (as a percentage) of throttle samples at partial throttle:
`((throttle_samples > 5) & (throttle_samples < 95)).mean() * 100`, the
elementwise conjunction of the two band tests. -/
def mid_throttle (l : List ℚ) : ℚ :=
  (l.countP (fun x => decide (5 < x) && decide (x < 95)) : ℚ) / l.length * 100

/-- Fraction (as a percentage) of throttle samples at no throttle:
`(throttle_samples <= 5).mean() * 100`. -/
def no_throttle (l : List ℚ) : ℚ :=
  (l.countP (fun x => decide (x ≤ 5)) : ℚ) / l.length * 100

/-! ### Completion rate (extract_race_data.py lines 162-167,
extract_race_data_detailed.py lines 160-163) -/

/-- A lap record as far as the session statistics are concerned: only whether
its `LapTime` is missing (`pd.isna`) matters, kept in milliseconds when present. -/
structure StatLap where
  lapTime : Option Nat
deriving DecidableEq

/-- Embedding of the completion-rate computation
`(completed_laps/total_laps*100)`: `total_laps = len(session.laps)`,
`completed_laps = len(session.laps[pd.notna(session.laps['LapTime'])])`.
Python division raises `ZeroDivisionError` when the divisor is zero, embedded
as `Except.error`; otherwise the exact rational percentage is produced (the
report then renders it with one decimal digit). -/
def completionRate (laps : List StatLap) : Except String ℚ :=
  let total_laps := laps.length
  let completed_laps := (laps.filter (fun l => l.lapTime.isSome)).length
  if total_laps = 0 then .error "ZeroDivisionError"
  else .ok ((completed_laps : ℚ) / (total_laps : ℚ) * 100)

/-! ### Output filename (extract_race_data.py lines 66-69,
extract_race_data_detailed.py lines 73-76) -/

/-- Embedding of the output filename
`f"race_data_{event}_{year}_{session_type}.txt"`. -/
def makeFilename (event : String) (year : Nat) (session_type : String) : String :=
  "race_data_" ++ event ++ "_" ++ toString year ++ "_" ++ session_type ++ ".txt"

/-- Embedding of the filename computation of one run, including the wall clock
visible to it: line 66 computes `timestamp = datetime.now().strftime(...)` and
line 67 builds the filename without it. -/
def outputFilename (now : String) (event : String) (year : Nat) (session_type : String) :
    String :=
  let _timestamp := now
  makeFilename event year session_type

/-- A file system as a map from names to contents; `open(filename, 'w')`
followed by the writes replaces the content stored under that name and touches
no other name. -/
def writeFile (fs : String → Option String) (name content : String) :
    String → Option String :=
  fun n => if n = name then some content else fs n

/-! ### Description block (extract_race_data.py lines 69-73) -/

/-- The separator written after the description: `"="*50`. -/
def sepLine : String := String.mk (List.replicate 50 '=')

/-- Embedding of lines 70-73: the description argument (default `None`) is
tested with Python truthiness (`if description:`), under which both `None` and
the empty string are falsy; when truthy the code writes the description, a
blank line, the 50-equals separator and a blank line. -/
def descriptionBlock : Option String → String
  | none => ""
  | some d => if d = "" then "" else d ++ "\n\n" ++ sepLine ++ "\n\n"

/-! ### Per-lap telemetry in the lap-by-lap section (extract_race_data.py
lines 197-269, extract_race_data_detailed.py lines 123-155) -/

/-- Whether an `Except` value is a success, the observable of "the report ran
to completion" versus "an uncaught exception aborted it". -/
def exceptOk {α : Type} : Except String α → Bool
  | .ok _ => true
  | .error _ => false

/-- A lap as seen by the per-driver detail loop: its `LapTime` (missing when
`pd.isna` holds) and the outcome of calling `lap.get_telemetry()`, which either
returns the sample list (here its speed samples) or raises. -/
structure TelLap where
  lapTime : Option Nat
  telemetry : Except String (List Nat)

/-- The telemetry-stats subsection written for a lap whose retrieved telemetry
is non-empty (lines 229-234, abridged to the max-speed statistic). -/
def telemetryStats (tel : List Nat) : String :=
  "  Telemetry Stats: Max Speed " ++ toString (tel.foldl max 0) ++ "\n"

/-- Embedding of one iteration of the lap loop: laps with a missing `LapTime`
are skipped by the `pd.notna` guard (line 198) and never fetch telemetry; for
the others, `telemetry = lap.get_telemetry()` (line 228) is called with no
surrounding try/except, so a raise propagates; an empty telemetry merely omits
the stats subsection (line 229). -/
def lapDetail (lap : TelLap) : Except String String :=
  match lap.lapTime with
  | none => .ok ""
  | some t =>
      match lap.telemetry with
      | .error e => .error e
      | .ok tel =>
          .ok ("Lap time " ++ format_timedelta (some t) ++ "\n"
            ++ if tel.isEmpty then "" else telemetryStats tel)

/-- Embedding of the whole lap loop: iterations run in order and an uncaught
exception aborts everything after it. -/
def lapByLap : List TelLap → Except String String
  | [] => .ok ""
  | lap :: rest =>
      match lapDetail lap with
      | .error e => .error e
      | .ok s =>
          match lapByLap rest with
          | .error e => .error e
          | .ok r => .ok (s ++ r)

/-- Concrete laps for the C2 counterexample: the middle lap's telemetry
retrieval raises while its neighbours succeed. -/
def exTelLaps : List TelLap :=
  [⟨some 90000, .ok [300]⟩, ⟨some 91000, .error "telemetry boom"⟩,
   ⟨some 92000, .ok [280]⟩]

/-! ### Session frame effect of the formatter (extract_race_data.py
lines 122-142) -/

/-- One weather sample, reduced to the fields the frame claim is about: the
Time column entry (its dtype flag and the duration it denotes) and a
representative data column. -/
structure WeatherSample where
  timeIsTd : Bool
  timeMs : Int
  airTemp : Int
deriving DecidableEq

/-- Embedding of `pd.to_timedelta` on one Time entry: the entry becomes a
timedelta, preserving the duration it denotes; an entry that already is a
timedelta is unchanged. -/
def to_timedelta (w : WeatherSample) : WeatherSample := { w with timeIsTd := true }

/-- A driver row of `session.results`. -/
structure DriverResult where
  driverNumber : Nat
  fullName : String
  position : Nat
deriving DecidableEq

/-- A row of `session.laps`: its driver and its `LapTime` in milliseconds
(`none` when `pd.isna` holds). -/
structure PLap where
  driver : Nat
  lapTime : Option Nat
deriving DecidableEq

/-- The Session's entity groups as shared, aliasable objects. -/
structure RaceSession where
  results : List DriverResult
  laps : List PLap
  weather_data : List WeatherSample
deriving DecidableEq

/-- The net effect of `extract_race_data` on the loaded Session object:
`session.results` is copied before sorting (line 105) and `session.laps` is
copied before augmentation (line 130), so both are left unchanged; but line 127
executes `weather_data['Time'] = pd.to_timedelta(weather_data['Time'])` on the
frame returned by `session.weather_data` without a copy, reassigning the
Session's own Time column, guarded by the emptiness check on line 125. -/
def extract_race_data_effect (s : RaceSession) : RaceSession :=
  if s.weather_data.isEmpty then s
  else { s with weather_data := s.weather_data.map to_timedelta }

/-- Concrete session for the C7 counterexample: one weather sample whose Time
entry is not yet of timedelta dtype. -/
def exSession : RaceSession :=
  ⟨[], [], [⟨false, 1000, 25⟩]⟩

/-- Concrete session for the C7 witness: every weather Time entry already a
timedelta. -/
def exSessionTd : RaceSession :=
  ⟨[⟨1, "Max Verstappen", 1⟩], [⟨1, some 90000⟩], [⟨true, 1000, 25⟩, ⟨true, 61000, 26⟩]⟩

/-! ### Dashboard state machine (vizi.py) -/

/-- The (year, event, session kind) triple entered in the selection widgets. -/
structure Selections where
  year : Int
  event : String
  session_type : String
deriving DecidableEq

/-- The `st.session_state` fields vizi.py uses, each `none` while the key is
absent from the session state. -/
structure AppState where
  hide_visi_buton : Option Bool
  last_selections : Option Selections
  data_loaded : Option Bool
  driver_map : Option (List (Nat × String))
deriving DecidableEq

/-- The session state before the first script run: no keys present. -/
def initAppState : AppState := ⟨none, none, none, none⟩

/-- Embedding of one full Streamlit rerun of vizi.py. Arguments: the driver
map the provider would return for the current triple, the session state
carried over, the current widget triple, whether the load button (line 73) and
the visualization button (line 110) report a click, and whether the driver
multiselect is non-empty (line 102). Returns the updated session state and how
many times `fastf1.get_session(...).load()` ran during the rerun. Steps:
lines 50-51 default the hide flag; lines 60-66 compare the triple against
`last_selections` and on a change set the hide flag and clear `data_loaded`;
lines 69-70 store the triple when absent; lines 73-92 load the Session on the
load button (storing only the driver-name map, the triple and the flags — the
Session object itself is not stored); lines 95-115 show the driver selection
only when data is loaded and the inputs are unchanged, and on the
visualization button load the Session again (lines 113-115). -/
def runScript (providerMap : List (Nat × String)) (s0 : AppState) (cur : Selections)
    (loadClicked vizClicked driversSelected : Bool) : AppState × Nat :=
  let s1 := { s0 with hide_visi_buton := some (s0.hide_visi_buton.getD false) }
  let s2 :=
    match s1.last_selections with
    | some last =>
        if cur ≠ last then
          { s1 with hide_visi_buton := some true, data_loaded := some false }
        else { s1 with hide_visi_buton := some false }
    | none => s1
  let s3 :=
    if s2.last_selections = none then { s2 with last_selections := some cur } else s2
  let afterLoad :=
    if loadClicked then
      ({ s3 with
          driver_map := some providerMap
          last_selections := some cur
          data_loaded := some true
          hide_visi_buton := some false }, 1)
    else (s3, 0)
  let s4 := afterLoad.1
  let vizLoads :=
    if s4.data_loaded = some true ∧ s4.hide_visi_buton = some false
        ∧ driversSelected = true ∧ vizClicked = true then 1 else 0
  (s4, afterLoad.2 + vizLoads)

/-- Concrete triple for the C6 counterexample. -/
def exSelections : Selections := ⟨2024, "Monaco", "Race"⟩

/-- Concrete provider driver map for the C6 counterexample. -/
def exMap : List (Nat × String) := [(1, "Max Verstappen")]

/-- The session state after a rerun in which the load button was clicked for
`exSelections`. -/
def loadedState : AppState :=
  (runScript exMap initAppState exSelections true false false).1

/-! ### Classification ordering and practice ranking (extract_race_data.py
lines 103-120, vizi.py lines 134-159) -/

/-- Stable insertion of one element into a list by a natural-number sort key:
the element goes in front of the first position whose key is not smaller. -/
def insertBy {α : Type} (key : α → Nat) (x : α) : List α → List α
  | [] => [x]
  | y :: ys => if key x ≤ key y then x :: y :: ys else y :: insertBy key x ys

/-- Stable sort by a natural-number key, modelling Python's stable `sorted`
(vizi.py line 148) and the value sort of `sort_values('Position')`
(extract_race_data.py lines 106 and 115). -/
def isortBy {α : Type} (key : α → Nat) : List α → List α
  | [] => []
  | x :: xs => insertBy key x (isortBy key xs)

/-- The Race and Qualifying classification order:
`results.sort_values('Position')` ascending. -/
def sortByPosition (results : List DriverResult) : List DriverResult :=
  isortBy (fun r => r.position) results

/-- Embedding of `pick_fastest` restricted to what vizi.py uses: the minimal
valid `LapTime` of the given laps, the first occurrence winning a tie
(`idxmin` keeps the first index of the minimum); `none` when no lap has a
valid time. -/
def pick_fastest_time (laps : List PLap) : Option Nat :=
  laps.foldl
    (fun best lap =>
      match lap.lapTime with
      | none => best
      | some t =>
          match best with
          | none => some t
          | some bt => if t < bt then some t else best)
    none

/-- Embedding of vizi.py lines 139-145: iterate `session.drivers` in order and
record each driver's best valid lap time, skipping drivers without one. -/
def all_driver_best_times (drivers : List Nat) (laps : List PLap) : List (Nat × Nat) :=
  drivers.filterMap (fun d =>
    match pick_fastest_time (laps.filter (fun l => l.driver == d)) with
    | some t => some (d, t)
    | none => none)

/-- Embedding of vizi.py line 148: all drivers with a best time, stably sorted
by that time. -/
def sorted_drivers (drivers : List Nat) (laps : List PLap) : List (Nat × Nat) :=
  isortBy (fun p => p.2) (all_driver_best_times drivers laps)

/-- Embedding of vizi.py line 151: the rank of a driver is one plus its index
in the sorted list (the drivers of a Session are pairwise distinct, so the
first matching index is the driver's unique entry). -/
def position_mapping (drivers : List Nat) (laps : List PLap) (d : Nat) : Option Nat :=
  ((sorted_drivers drivers laps).findIdx? (fun p => p.1 == d)).map (· + 1)

/-- Embedding of vizi.py lines 154-161: the displayed positions are the
all-driver ranking looked up for each selected driver. -/
def displayPositions (drivers : List Nat) (laps : List PLap) (sel : List Nat) :
    List (Nat × Option Nat) :=
  sel.map (fun d => (d, position_mapping drivers laps d))

/-- Concrete driver list for the C8 counterexample, in session-native driver
order. -/
def exDrivers : List Nat := [1, 2]

/-- Concrete laps for the C8 counterexample: both drivers tie on a 100 s best
lap and driver 2's lap occurs first in the session's lap sequence. -/
def exPracticeLaps : List PLap := [⟨2, some 100000⟩, ⟨1, some 100000⟩]

/-! ### Helper lemmas -/

lemma brakeZonesAux_true (l : List Nat) :
    brakeZonesAux true l = brakeZonesAux false (l.dropWhile (fun w => decide (0 < w))) := by
  induction l with
  | nil => rfl
  | cons v rest ih =>
      by_cases hv : 0 < v
      · have hv0 : ¬ v = 0 := by omega
        simp [brakeZonesAux, hv, hv0, List.dropWhile_cons, ih]
      · have hv0 : v = 0 := by omega
        subst hv0
        simp [brakeZonesAux, List.dropWhile_cons]

lemma brake_zones_eq_countBrakeRuns (l : List Nat) : brake_zones l = countBrakeRuns l := by
  induction l using countBrakeRuns.induct with
  | case1 => simp [brake_zones, brakeZonesAux, countBrakeRuns]
  | case2 v rest hv ih =>
      have hv0 : ¬ v = 0 := by omega
      unfold brake_zones at *
      simp only [brakeZonesAux, hv, hv0, and_true, if_true, if_false, ite_true]
      rw [countBrakeRuns]
      simp only [hv, if_true]
      rw [brakeZonesAux_true, ih]
  | case3 v rest hv ih =>
      have hv0 : v = 0 := by omega
      subst hv0
      unfold brake_zones at *
      simp only [brakeZonesAux]
      rw [countBrakeRuns]
      simpa using ih

lemma throttle_count_split (l : List ℚ) :
    l.countP (fun x => decide (95 ≤ x))
      + l.countP (fun x => decide (5 < x) && decide (x < 95))
      + l.countP (fun x => decide (x ≤ 5)) = l.length := by
  induction l with
  | nil => simp
  | cons a t ih =>
      simp only [List.countP_cons, List.length_cons]
      by_cases h1 : (95 : ℚ) ≤ a
      · have h2 : ¬ (a < (95 : ℚ)) := not_lt.mpr h1
        have h3 : ¬ (a ≤ (5 : ℚ)) := by intro hb; linarith
        simp [h1, h2, h3]
        omega
      · by_cases h3 : a ≤ (5 : ℚ)
        · have h2 : ¬ ((5 : ℚ) < a) := not_lt.mpr h3
          simp [h1, h2, h3]
          omega
        · have h2 : (5 : ℚ) < a := not_le.mp h3
          have h4 : a < (95 : ℚ) := not_le.mp h1
          simp [h1, h2, h3, h4]
          omega

lemma lapDetail_ok (lap : TelLap) (h : exceptOk lap.telemetry = true) :
    exceptOk (lapDetail lap) = true := by
  unfold lapDetail
  cases hlt : lap.lapTime with
  | none => rfl
  | some t =>
      cases htel : lap.telemetry with
      | error e => rw [htel] at h; simp [exceptOk] at h
      | ok tel => rfl

lemma lapDetail_error (lap : TelLap) (h1 : lap.lapTime.isSome = true)
    (h2 : exceptOk lap.telemetry = false) : ∃ e, lapDetail lap = .error e := by
  unfold lapDetail
  cases hlt : lap.lapTime with
  | none => rw [hlt] at h1; simp at h1
  | some t =>
      cases htel : lap.telemetry with
      | error e => exact ⟨e, rfl⟩
      | ok tel => rw [htel] at h2; simp [exceptOk] at h2

lemma lapByLap_ok_of_all_ok (laps : List TelLap)
    (h : ∀ l ∈ laps, exceptOk l.telemetry = true) :
    exceptOk (lapByLap laps) = true := by
  induction laps with
  | nil => rfl
  | cons lap rest ih =>
      have hlap := lapDetail_ok lap (h lap (List.mem_cons_self _ _))
      have hrest := ih (fun l hl => h l (List.mem_cons_of_mem _ hl))
      rw [lapByLap]
      cases hd : lapDetail lap with
      | error e => rw [hd] at hlap; simp [exceptOk] at hlap
      | ok s =>
          cases hr : lapByLap rest with
          | error e => rw [hr] at hrest; simp [exceptOk] at hrest
          | ok r => rfl

lemma lapByLap_error_of_failing (laps : List TelLap)
    (h : ∃ l ∈ laps, l.lapTime.isSome = true ∧ exceptOk l.telemetry = false) :
    exceptOk (lapByLap laps) = false := by
  induction laps with
  | nil => rcases h with ⟨l, hl, _⟩; cases hl
  | cons lap rest ih =>
      rw [lapByLap]
      rcases h with ⟨l, hl, hsome, herr⟩
      rcases List.mem_cons.mp hl with rfl | hmem
      · rcases lapDetail_error l hsome herr with ⟨e, he⟩
        rw [he]
        rfl
      · cases hd : lapDetail lap with
        | error e => rfl
        | ok s =>
            have hrest := ih ⟨l, hmem, hsome, herr⟩
            cases hr : lapByLap rest with
            | error e => rfl
            | ok r => rw [hr] at hrest; simp [exceptOk] at hrest

lemma to_timedelta_id (w : WeatherSample) (h : w.timeIsTd = true) :
    to_timedelta w = w := by
  cases w
  simp only [to_timedelta]
  simp_all

lemma map_to_timedelta_id (ws : List WeatherSample)
    (h : ∀ w ∈ ws, w.timeIsTd = true) : ws.map to_timedelta = ws := by
  induction ws with
  | nil => rfl
  | cons w t ih =>
      rw [List.map_cons, to_timedelta_id w (h w (List.mem_cons_self _ _)),
        ih (fun a ha => h a (List.mem_cons_of_mem _ ha))]

lemma extract_race_data_effect_eq (s : RaceSession) :
    extract_race_data_effect s
      = { s with weather_data := s.weather_data.map to_timedelta } := by
  unfold extract_race_data_effect
  by_cases he : s.weather_data.isEmpty
  · have hnil : s.weather_data = [] := List.isEmpty_iff.mp he
    cases s
    simp_all
  · simp [he]

lemma mem_insertBy {α : Type} (key : α → Nat) (x a : α) (l : List α)
    (h : a ∈ insertBy key x l) : a = x ∨ a ∈ l := by
  induction l with
  | nil => simpa [insertBy] using h
  | cons y ys ih =>
      rw [insertBy] at h
      split at h
      · simpa using h
      · rcases List.mem_cons.mp h with h' | h'
        · right; exact h' ▸ List.mem_cons_self y ys
        · rcases ih h' with h'' | h''
          · left; exact h''
          · right; exact List.mem_cons_of_mem _ h''

lemma pairwise_insertBy {α : Type} (key : α → Nat) (x : α) (l : List α)
    (h : l.Pairwise (fun a b => key a ≤ key b)) :
    (insertBy key x l).Pairwise (fun a b => key a ≤ key b) := by
  induction l with
  | nil => simp [insertBy]
  | cons y ys ih =>
      rcases List.pairwise_cons.mp h with ⟨hy, hys⟩
      rw [insertBy]
      split
      · rename_i hxy
        refine List.pairwise_cons.mpr ⟨?_, h⟩
        intro b hb
        rcases List.mem_cons.mp hb with rfl | hb'
        · exact hxy
        · exact le_trans hxy (hy b hb')
      · rename_i hxy
        refine List.pairwise_cons.mpr ⟨?_, ih hys⟩
        intro b hb
        rcases mem_insertBy key x b ys hb with rfl | hb'
        · exact le_of_not_le hxy
        · exact hy b hb'

lemma pairwise_isortBy {α : Type} (key : α → Nat) (l : List α) :
    (isortBy key l).Pairwise (fun a b => key a ≤ key b) := by
  induction l with
  | nil => simp [isortBy]
  | cons x xs ih => exact pairwise_insertBy key x _ ih

lemma filter_insertBy {α : Type} (key : α → Nat) (t : Nat) (x : α) (l : List α) :
    (insertBy key x l).filter (fun y => key y == t)
      = if key x == t then x :: l.filter (fun y => key y == t)
        else l.filter (fun y => key y == t) := by
  induction l with
  | nil =>
      rw [insertBy]
      by_cases hxt : (key x == t) = true <;> simp [List.filter_cons, hxt]
  | cons y ys ih =>
      rw [insertBy]
      split
      · rename_i hxy
        by_cases hxt : (key x == t) = true <;>
          simp [List.filter_cons, hxt]
      · rename_i hxy
        have hlt : key y < key x := Nat.lt_of_not_le hxy
        rw [List.filter_cons, ih]
        by_cases hxt : (key x == t) = true
        · have hyt : (key y == t) = false := by
            have hx : key x = t := by simpa using hxt
            simp only [beq_eq_false_iff_ne, ne_eq]
            omega
          simp [hxt, hyt, List.filter_cons]
        · by_cases hyt : (key y == t) = true <;>
            simp [hxt, hyt, List.filter_cons]

lemma filter_isortBy {α : Type} (key : α → Nat) (t : Nat) (l : List α) :
    (isortBy key l).filter (fun y => key y == t) = l.filter (fun y => key y == t) := by
  induction l with
  | nil => rfl
  | cons x xs ih =>
      rw [isortBy, filter_insertBy, List.filter_cons]
      by_cases hxt : (key x == t) = true <;> simp [hxt, ih]

end F1Visualizer

/-- C3: for every non-missing duration (at millisecond granularity), the
formatter renders it as M:SS.mmm — minutes unpadded, seconds zero-padded to two
integer digits, milliseconds to three digits; 65.5 seconds renders as
"1:05.500"; a missing duration renders as the literal "No time". -/
theorem C3_format_timedelta_spec :
    F1Visualizer.format_timedelta none = "No time"
    ∧ (∀ ms : Nat, F1Visualizer.format_timedelta (some ms) = F1Visualizer.renderMSSmmm ms)
    ∧ F1Visualizer.format_timedelta (some 65500) = "1:05.500" := by
  refine ⟨rfl, ?_, by decide⟩
  intro ms
  have h1 : ms % 60000 / 1000 = ms / 1000 % 60 := by omega
  have h2 : ms % 60000 % 1000 = ms % 1000 := by omega
  simp only [F1Visualizer.format_timedelta, F1Visualizer.renderMSSmmm, h1, h2]

/-- C4: the reported brake-zone count equals the number of maximal runs of
consecutive samples with brake > 0, and on the synthetic sequence
[0,1,1,0,0,1,0] the count equals 2. -/
theorem C4_brake_zones_count :
    (∀ l : List Nat, F1Visualizer.brake_zones l = F1Visualizer.countBrakeRuns l)
    ∧ F1Visualizer.brake_zones [0, 1, 1, 0, 0, 1, 0] = 2 :=
  ⟨F1Visualizer.brake_zones_eq_countBrakeRuns, by decide⟩

/-- C5: on every non-empty throttle-sample sequence the three throttle-usage
buckets (full ≥ 95, partial strictly between 5 and 95, none ≤ 5, each the
fraction of samples in the band) partition the samples, so the three
percentages sum to exactly 100 before display rounding. -/
theorem C5_throttle_buckets_sum (l : List ℚ) (h : l ≠ []) :
    F1Visualizer.full_throttle l + F1Visualizer.mid_throttle l
      + F1Visualizer.no_throttle l = 100 := by
  have hl : l.length ≠ 0 := fun he => h (List.length_eq_zero.mp he)
  have hn : (l.length : ℚ) ≠ 0 := Nat.cast_ne_zero.mpr hl
  have hc := F1Visualizer.throttle_count_split l
  have hcq : ((l.countP (fun x => decide (95 ≤ x)) : ℚ)
      + (l.countP (fun x => decide (5 < x) && decide (x < 95)) : ℚ)
      + (l.countP (fun x => decide (x ≤ 5)) : ℚ)) = (l.length : ℚ) := by
    exact_mod_cast hc
  unfold F1Visualizer.full_throttle F1Visualizer.mid_throttle F1Visualizer.no_throttle
  field_simp
  linarith [hcq]

/-- Witness for C5 at the concrete sample list [0, 50, 100]. -/
theorem C5_throttle_buckets_sum_witness :
    F1Visualizer.full_throttle [(0 : ℚ), 50, 100] + F1Visualizer.mid_throttle [0, 50, 100]
      + F1Visualizer.no_throttle [0, 50, 100] = 100 :=
  C5_throttle_buckets_sum [0, 50, 100] (by decide)

/-- C1 (code bug): on a Session whose lap list is empty the code computes
`completed_laps/total_laps*100` with `total_laps = 0` and raises
`ZeroDivisionError` instead of reporting the "0.0%" that the spec requires. -/
theorem C1_completion_rate_zero_laps :
    F1Visualizer.completionRate [] = Except.error "ZeroDivisionError"
    ∧ F1Visualizer.exceptOk (F1Visualizer.completionRate []) = false :=
  ⟨rfl, rfl⟩

/-- C9: the output filename is a deterministic function of event, year and
session kind only — two runs at different wall-clock times produce the same
name — and a rerun overwrites: after writing twice, the file system holds the
second content under that single name and is unchanged elsewhere. -/
theorem C9_filename_deterministic_overwrites
    (now1 now2 event session_type : String) (year : Nat)
    (fs : String → Option String) (c1 c2 : String) :
    F1Visualizer.outputFilename now1 event year session_type
        = F1Visualizer.outputFilename now2 event year session_type
    ∧ F1Visualizer.writeFile
        (F1Visualizer.writeFile fs
          (F1Visualizer.outputFilename now1 event year session_type) c1)
        (F1Visualizer.outputFilename now2 event year session_type) c2
      = fun n => if n = F1Visualizer.outputFilename now1 event year session_type
          then some c2 else fs n := by
  refine ⟨rfl, funext fun n => ?_⟩
  simp only [F1Visualizer.writeFile, F1Visualizer.outputFilename]
  by_cases h : n = F1Visualizer.makeFilename event year session_type <;> simp [h]

/-- C10: the empty-string description is treated the same as an absent one —
the description block is empty in both cases — and for a non-empty description
the block is the description, a blank line, a separator of 50 equals signs and
a blank line. -/
theorem C10_description_block (d : String) (h : d ≠ "") :
    F1Visualizer.descriptionBlock (some "") = F1Visualizer.descriptionBlock none
    ∧ F1Visualizer.descriptionBlock none = ""
    ∧ F1Visualizer.descriptionBlock (some d)
        = d ++ "\n\n" ++ F1Visualizer.sepLine ++ "\n\n"
    ∧ F1Visualizer.sepLine.length = 50
    ∧ F1Visualizer.sepLine.toList.all (fun c => c = '=') = true := by
  refine ⟨rfl, rfl, ?_, by decide, by decide⟩
  simp [F1Visualizer.descriptionBlock, h]

/-- Witness for C10 at the concrete description "Race Description". -/
theorem C10_description_block_witness :
    F1Visualizer.descriptionBlock (some "Race Description")
      = "Race Description" ++ "\n\n" ++ F1Visualizer.sepLine ++ "\n\n" :=
  (C10_description_block "Race Description" (by decide)).2.2.1

/-- C2 counterexample: with three laps whose middle lap's telemetry retrieval
raises, the lap loop aborts with that error — the remaining lap is never
reached and no completed report is produced, refuting that the failure is
caught and only that lap's telemetry subsection omitted. -/
theorem C2_counterexample :
    F1Visualizer.lapByLap F1Visualizer.exTelLaps = Except.error "telemetry boom"
    ∧ F1Visualizer.exceptOk (F1Visualizer.lapByLap F1Visualizer.exTelLaps) = false :=
  ⟨rfl, rfl⟩

/-- C2 amended: a per-lap telemetry retrieval failure is not caught — for any
lap list, generation completes exactly when every lap's telemetry call
succeeds, and one failing call on a lap with a valid lap time aborts the whole
loop; a successful call returning empty telemetry merely omits the telemetry
subsection of that lap. -/
theorem C2_amended_uncaught_telemetry_failure :
    (∀ laps : List F1Visualizer.TelLap,
        (∀ l ∈ laps, F1Visualizer.exceptOk l.telemetry = true) →
        F1Visualizer.exceptOk (F1Visualizer.lapByLap laps) = true)
    ∧ (∀ laps : List F1Visualizer.TelLap,
        (∃ l ∈ laps, l.lapTime.isSome = true ∧ F1Visualizer.exceptOk l.telemetry = false) →
        F1Visualizer.exceptOk (F1Visualizer.lapByLap laps) = false)
    ∧ (∀ t : Nat, F1Visualizer.lapDetail ⟨some t, Except.ok []⟩
        = Except.ok ("Lap time " ++ F1Visualizer.format_timedelta (some t) ++ "\n")) := by
  refine ⟨F1Visualizer.lapByLap_ok_of_all_ok, F1Visualizer.lapByLap_error_of_failing, ?_⟩
  intro t
  simp [F1Visualizer.lapDetail]

/-- Witness for the amended C2 at concrete lap lists. -/
theorem C2_amended_witness :
    F1Visualizer.exceptOk
        (F1Visualizer.lapByLap [⟨some 90000, Except.ok [300]⟩]) = true
    ∧ F1Visualizer.exceptOk (F1Visualizer.lapByLap F1Visualizer.exTelLaps) = false := by
  constructor
  · exact C2_amended_uncaught_telemetry_failure.1 _ (by
      intro l hl
      rcases List.mem_singleton.mp hl with rfl
      rfl)
  · exact C2_amended_uncaught_telemetry_failure.2.1 F1Visualizer.exTelLaps
      ⟨⟨some 91000, Except.error "telemetry boom"⟩,
        by simp [F1Visualizer.exTelLaps], rfl, rfl⟩

/-- C6 counterexample: starting from the state left by a successful load of
the triple (2024, Monaco, Race), a visualization interaction with the same
triple performs one fresh Session load (the code re-runs
`fastf1.get_session(...).load()`, vizi.py lines 113-115) instead of reusing a
cached Session — no Session object is stored in the session state at all. -/
theorem C6_counterexample :
    F1Visualizer.loadedState.last_selections = some F1Visualizer.exSelections
    ∧ F1Visualizer.loadedState.data_loaded = some true
    ∧ (F1Visualizer.runScript F1Visualizer.exMap F1Visualizer.loadedState
        F1Visualizer.exSelections false true true).2 = 1 :=
  ⟨rfl, rfl, rfl⟩

/-- C6 amended: the dashboard caches only the driver-name map, the last triple
and the flags; changing the triple invalidates the dependent state (clears the
data-loaded flag, hides the selection UI, and no load happens that rerun);
clicking load stores the triple and map with exactly one Session load; and a
visualization interaction with an unchanged triple loads the Session anew
(exactly one load) rather than reusing a cached one. -/
theorem C6_amended_state_machine :
    (∀ (pm : List (Nat × String)) (s : F1Visualizer.AppState)
        (last cur : F1Visualizer.Selections) (v d : Bool),
        s.last_selections = some last → cur ≠ last →
        ((F1Visualizer.runScript pm s cur false v d).1.data_loaded = some false
          ∧ (F1Visualizer.runScript pm s cur false v d).1.hide_visi_buton = some true
          ∧ (F1Visualizer.runScript pm s cur false v d).2 = 0))
    ∧ (∀ (pm : List (Nat × String)) (s : F1Visualizer.AppState)
        (cur : F1Visualizer.Selections) (d : Bool),
        ((F1Visualizer.runScript pm s cur true false d).1.last_selections = some cur
          ∧ (F1Visualizer.runScript pm s cur true false d).1.data_loaded = some true
          ∧ (F1Visualizer.runScript pm s cur true false d).1.driver_map = some pm
          ∧ (F1Visualizer.runScript pm s cur true false d).2 = 1))
    ∧ (∀ (pm : List (Nat × String)) (s : F1Visualizer.AppState)
        (cur : F1Visualizer.Selections),
        s.last_selections = some cur → s.data_loaded = some true →
        (F1Visualizer.runScript pm s cur false true true).2 = 1) := by
  refine ⟨?_, ?_, ?_⟩
  · intro pm s last cur v d hlast hne
    simp [F1Visualizer.runScript, hlast, hne]
  · intro pm s cur d
    simp [F1Visualizer.runScript]
  · intro pm s cur hlast hdata
    simp [F1Visualizer.runScript, hlast, hdata]

/-- Witness for the amended C6 at concrete states and triples. -/
theorem C6_amended_witness :
    F1Visualizer.loadedState.last_selections = some F1Visualizer.exSelections
    ∧ (⟨2023, "Monza", "Race"⟩ : F1Visualizer.Selections) ≠ F1Visualizer.exSelections
    ∧ (F1Visualizer.runScript F1Visualizer.exMap F1Visualizer.loadedState
        ⟨2023, "Monza", "Race"⟩ false false false).1.data_loaded = some false
    ∧ (F1Visualizer.runScript F1Visualizer.exMap F1Visualizer.loadedState
        F1Visualizer.exSelections false true true).2 = 1 := by
  refine ⟨by decide, by decide, ?_, ?_⟩
  · exact (C6_amended_state_machine.1 F1Visualizer.exMap F1Visualizer.loadedState
      F1Visualizer.exSelections ⟨2023, "Monza", "Race"⟩ false false
      (by decide) (by decide)).1
  · exact C6_amended_state_machine.2.2 F1Visualizer.exMap F1Visualizer.loadedState
      F1Visualizer.exSelections (by decide) (by decide)

/-- C7 counterexample: on a Session whose weather Time entries are not yet of
timedelta dtype, the formatter leaves the Session changed — line 127 reassigns
the Session's own weather Time column in place (no copy, unlike results on
line 105 and laps on line 130), so the Session is not left unchanged. -/
theorem C7_counterexample :
    F1Visualizer.extract_race_data_effect F1Visualizer.exSession
        = ⟨[], [], [⟨true, 1000, 25⟩]⟩
    ∧ decide (F1Visualizer.extract_race_data_effect F1Visualizer.exSession
        = F1Visualizer.exSession) = false := by
  refine ⟨rfl, by decide⟩

/-- C7 amended: the formatter leaves results and laps unchanged and preserves
every weather value, but retypes the weather Time column in place to timedelta
(pandas to_timedelta, line 127); a Session whose weather Time entries are
already timedeltas is left entirely unchanged. -/
theorem C7_amended_weather_time_only (s : F1Visualizer.RaceSession) :
    (F1Visualizer.extract_race_data_effect s).results = s.results
    ∧ (F1Visualizer.extract_race_data_effect s).laps = s.laps
    ∧ (F1Visualizer.extract_race_data_effect s).weather_data.map
        F1Visualizer.WeatherSample.timeMs
        = s.weather_data.map F1Visualizer.WeatherSample.timeMs
    ∧ (F1Visualizer.extract_race_data_effect s).weather_data.map
        F1Visualizer.WeatherSample.airTemp
        = s.weather_data.map F1Visualizer.WeatherSample.airTemp
    ∧ ((∀ w ∈ s.weather_data, w.timeIsTd = true) →
        F1Visualizer.extract_race_data_effect s = s) := by
  rw [F1Visualizer.extract_race_data_effect_eq]
  refine ⟨rfl, rfl, ?_, ?_, ?_⟩
  · rw [List.map_map]
    rfl
  · rw [List.map_map]
    rfl
  · intro hall
    rw [F1Visualizer.map_to_timedelta_id s.weather_data hall]

/-- Witness for the amended C7 at a concrete Session whose weather Time
entries are already timedeltas. -/
theorem C7_amended_witness :
    (∀ w ∈ F1Visualizer.exSessionTd.weather_data, w.timeIsTd = true)
    ∧ F1Visualizer.extract_race_data_effect F1Visualizer.exSessionTd
        = F1Visualizer.exSessionTd :=
  ⟨by decide,
    (C7_amended_weather_time_only F1Visualizer.exSessionTd).2.2.2.2 (by decide)⟩

/-- C8 counterexample: drivers [1, 2] in session-native driver order tie on a
100 s best lap, and driver 2's lap occurs first in the session's lap sequence
(index 0 versus index 1); yet the practice ranking places driver 1 at P1 and
driver 2 at P2, because the stable sort keeps the driver-list order — it does
not resolve ties to the driver whose lap occurs earlier. -/
theorem C8_counterexample :
    F1Visualizer.all_driver_best_times F1Visualizer.exDrivers F1Visualizer.exPracticeLaps
        = [(1, 100000), (2, 100000)]
    ∧ F1Visualizer.position_mapping F1Visualizer.exDrivers
        F1Visualizer.exPracticeLaps 1 = some 1
    ∧ F1Visualizer.position_mapping F1Visualizer.exDrivers
        F1Visualizer.exPracticeLaps 2 = some 2
    ∧ F1Visualizer.exPracticeLaps.findIdx (fun l => l.driver == 2) = 0
    ∧ F1Visualizer.exPracticeLaps.findIdx (fun l => l.driver == 1) = 1 :=
  ⟨rfl, rfl, rfl, rfl, rfl⟩

/-- C8 amended: Race and Qualifying classifications list drivers in ascending
position order; the practice ranking is computed across all of the Session's
drivers and then filtered to the selection; ties on best lap time resolve to
the driver appearing earlier in the Session's driver list (the stable sort
preserves the driver-list order within each tied time), not necessarily the
driver whose lap occurred earlier. -/
theorem C8_amended_ordering :
    (∀ results : List F1Visualizer.DriverResult,
        (F1Visualizer.sortByPosition results).Pairwise
          (fun a b => a.position ≤ b.position))
    ∧ (∀ (drivers : List Nat) (laps : List F1Visualizer.PLap) (t : Nat),
        (F1Visualizer.sorted_drivers drivers laps).filter (fun p => p.2 == t)
          = (F1Visualizer.all_driver_best_times drivers laps).filter
              (fun p => p.2 == t))
    ∧ (∀ (drivers : List Nat) (laps : List F1Visualizer.PLap)
        (sel : List Nat) (d : Nat), d ∈ sel →
        (d, F1Visualizer.position_mapping drivers laps d)
          ∈ F1Visualizer.displayPositions drivers laps sel) := by
  refine ⟨?_, ?_, ?_⟩
  · intro results
    exact F1Visualizer.pairwise_isortBy _ results
  · intro drivers laps t
    exact F1Visualizer.filter_isortBy _ t _
  · intro drivers laps sel d hd
    exact List.mem_map_of_mem _ hd

/-- Witness for the amended C8 at concrete drivers, laps and a selection. -/
theorem C8_amended_witness :
    (1 ∈ ([1, 2] : List Nat))
    ∧ (1, F1Visualizer.position_mapping F1Visualizer.exDrivers
          F1Visualizer.exPracticeLaps 1)
        ∈ F1Visualizer.displayPositions F1Visualizer.exDrivers
            F1Visualizer.exPracticeLaps [1, 2] :=
  ⟨by decide,
    C8_amended_ordering.2.2 F1Visualizer.exDrivers F1Visualizer.exPracticeLaps
      [1, 2] 1 (by decide)⟩
